import Mathlib

/-!
Shallow embedding of the invoice validation & classification engine of this
repository, together with its AI-response normalization layer, and proofs of
the specification claims about them.

Sources embedded:
* `models/invoice_validation.py` — `InvoiceValidationService` (rule pipeline).
* `services/gemini_invoice_processor.py` — `GeminiInvoiceProcessor`
  (`_parse_gemini_response`, `_validate_gemini_response`, and the retry loop
  of `_process_text_content`).

Modelling conventions:
* Python strings are Lean `String`s; character-level work happens on
  `List Char` (`String.data`), because those operations reduce in the kernel.
* Python `None`-able values are `Option`s; a key absent from a dict and a key
  present with value `None` are identified (both read back as `None` through
  `dict.get`, which is the only access pattern the embedded code uses).
* Python numbers (int/float) are modelled as `ℚ`. Rational constants are
  written with `mkRat` and subtraction with `ratSub` (below) so that every
  arithmetic operation evaluates by kernel reduction.
* `datetime` values are modelled as `ℚ` timestamps (seconds). A string
  `invoice_date` field is modelled after `datetime.fromisoformat` has been
  applied to it: `some (some t)` is a parseable date with timestamp `t`,
  `some none` is a present but unparseable date string, `none` is an
  absent/falsy date. `datetime.now()` is an explicit `now : ℚ` parameter.
* The MongoDB collection consulted by the duplicate checks is abstracted to
  the two query shapes the code issues (`find_one` on
  user/vendor/invoice_number and on user/email_message_id), as a `Store` of
  two boolean-valued predicates: `true` means "a document matched".
-/

/-! ### Python primitive helpers -/

/-- Python whitespace (`str.isspace` / regex `\s` for `str`): ASCII whitespace,
the C1 separators, NEL, NBSP and the Unicode space separators. -/
def pyWs (c : Char) : Bool :=
  let n := c.toNat
  n == 32 || n == 9 || n == 10 || n == 11 || n == 12 || n == 13 ||
  n == 28 || n == 29 || n == 30 || n == 31 || n == 133 || n == 160 ||
  n == 0x1680 || (0x2000 ≤ n && n ≤ 0x200a) || n == 0x2028 || n == 0x2029 ||
  n == 0x202f || n == 0x205f || n == 0x3000

/-- The character class `[\x00-\x1f\x7f-\x9f]` removed by
`_parse_gemini_response`. -/
def pyCtrl (c : Char) : Bool :=
  c.toNat ≤ 0x1f || (0x7f ≤ c.toNat && c.toNat ≤ 0x9f)

/-- `List` prefix test (used for Python `str.startswith` and as the primitive
for substring search). -/
def listPre : List Char → List Char → Bool
  | [], _ => true
  | _ :: _, [] => false
  | a :: as, b :: bs => a == b && listPre as bs

/-- Python's substring operator `needle in hay`. -/
def listInf (needle : List Char) : List Char → Bool
  | [] => needle.isEmpty
  | c :: cs => listPre needle (c :: cs) || listInf needle cs

/-- Python `str.lower()` (the embedded strings are ASCII; `Char.toLower`
lowercases exactly the ASCII range). -/
def pyLower (s : List Char) : List Char := s.map Char.toLower

/-- Python `str.strip()` with no argument: remove leading and trailing
whitespace. -/
def pyStripL (l : List Char) : List Char :=
  ((l.dropWhile pyWs).reverse.dropWhile pyWs).reverse

/-- Python truthiness of an optional string: `None` and `""` are falsy. -/
def pyTruthyS : Option String → Bool
  | none => false
  | some s => !s.data.isEmpty

/-- Python `str()` of an optional string as it appears inside an f-string:
`None` prints as `"None"`, a string prints as itself. -/
def pyStrOf : Option String → String
  | none => "None"
  | some s => s

/-- Fractional decimal digits of `r / d` (`r < d`), with fuel; used to print
rationals the way Python prints the (finite-decimal) numbers that actually
flow through this code. -/
def decDigits : Nat → Nat → Nat → List Char
  | 0, _, _ => []
  | _ + 1, 0, _ => []
  | fuel + 1, r, d =>
    let r10 := r * 10
    Char.ofNat (48 + r10 / d) :: decDigits fuel (r10 % d) d

/-- How a number interpolates into a Python f-string. Integral values print
without a decimal part (matching the integer literals, e.g. the default
confidence `0`, that reach these messages); non-integral finite decimals print
sign, integer part, `.`, fraction digits. -/
def pyNumRepr (q : ℚ) : String :=
  if q.den = 1 then toString q.num
  else
    let sign := if q.num < 0 then "-" else ""
    let na := q.num.natAbs
    sign ++ toString (na / q.den) ++ "." ++ String.mk (decDigits 30 (na % q.den) q.den)

/-- Rational subtraction written so that it evaluates by kernel reduction
(Batteries' `Rat.sub` is `@[irreducible]`); it agrees with `Rat.sub`. -/
def ratSub (a b : ℚ) : ℚ :=
  mkRat (a.num * Int.ofNat b.den - b.num * Int.ofNat a.den) (a.den * b.den)

/-! ### Data model of `models/invoice_validation.py` -/

/-- The two `find_one` query shapes issued against the invoice collection.
`true` means an existing document matched the query. -/
structure Store where
  hasInvoice : String → String → String → Bool
  hasMessage : String → String → Bool

/-- A store with no matching prior records. -/
def emptyStore : Store := ⟨fun _ _ _ => false, fun _ _ => false⟩

/-- The `invoice_data` dict handed to `validate_invoice`, restricted to the
keys the validation service reads. -/
structure InvoiceData where
  vendor_name : Option String := none
  invoice_number : Option String := none
  total_amount : Option ℚ := none
  invoice_date : Option (Option ℚ) := none
  confidence_score : Option ℚ := none
  email_subject : Option String := none
  email_sender : Option String := none
  email_message_id : Option String := none

/-- `DocumentType` enum. -/
inductive DocumentType where
  | INVOICE
  | PAYMENT_RECEIPT
  | PAYMENT_NOTIFICATION
  | STATEMENT
  | UNKNOWN
deriving DecidableEq, Repr

/-- The string payload of each `DocumentType` member. -/
def DocumentType.value : DocumentType → String
  | .INVOICE => "invoice"
  | .PAYMENT_RECEIPT => "payment_receipt"
  | .PAYMENT_NOTIFICATION => "payment_notification"
  | .STATEMENT => "statement"
  | .UNKNOWN => "unknown"

/-- `ValidationResult` (pydantic model), with its field defaults. -/
structure ValidationResult where
  is_valid : Bool := true
  errors : List String := []
  warnings : List String := []
  classification : Option DocumentType := none
  should_save : Bool := true
  requires_manual_review : Bool := false
deriving DecidableEq, Repr

/-! ### Rule constants of `InvoiceValidationService` -/

/-- Payment notification keywords (Rule 5). -/
def PAYMENT_NOTIFICATION_KEYWORDS : List String :=
  ["payment processed", "payment notification", "billing notification",
   "unsuccessful payment", "payment failed", "transfi payment",
   "payment received", "payment confirmation"]

/-- Payment receipt keywords (Rule 4). -/
def PAYMENT_RECEIPT_KEYWORDS : List String :=
  ["payment receipt", "payment confirmation", "transaction confirmation",
   "billing receipt", "receipt for payment"]

/-- Invoice keywords (Rule 6). -/
def INVOICE_KEYWORDS : List String :=
  ["invoice", "bill", "statement", "amount due", "please pay",
   "billing statement", "monthly bill"]

/-- Vendor amount ranges (Rule 10), in the insertion order of the source dict
(`dict.items()` iterates in insertion order). -/
def VENDOR_AMOUNT_RANGES : List (String × ℚ × ℚ) :=
  [("github", mkRat 5 1, mkRat 500 1),
   ("datadog", mkRat 50 1, mkRat 10000 1),
   ("atlassian", mkRat 10 1, mkRat 2000 1),
   ("jira", mkRat 10 1, mkRat 2000 1),
   ("slack", mkRat 5 1, mkRat 1000 1),
   ("zoom", mkRat 10 1, mkRat 500 1),
   ("aws", mkRat 1 1, mkRat 50000 1),
   ("azure", mkRat 1 1, mkRat 50000 1)]

/-! ### Error and warning message builders (the f-strings of the source) -/

/-- `f"Duplicate invoice ID '{invoice_data.get('invoice_number')}' for vendor
'{invoice_data.get('vendor_name')}'"`. -/
def dupInvoiceMsg (invoice_number vendor_name : Option String) : String :=
  "Duplicate invoice ID '" ++ pyStrOf invoice_number ++ "' for vendor '" ++
    pyStrOf vendor_name ++ "'"

/-- `f"Email message already processed: {invoice_data.get('email_message_id')}"`. -/
def dupEmailMsg (email_message_id : Option String) : String :=
  "Email message already processed: " ++ pyStrOf email_message_id

/-- `f"Document classified as {classification.value}, not a genuine invoice"`. -/
def docClassMsg (classification : DocumentType) : String :=
  "Document classified as " ++ classification.value ++ ", not a genuine invoice"

/-- `f"AI confidence too low: {confidence_score}"`. -/
def confLowMsg (confidence_score : ℚ) : String :=
  "AI confidence too low: " ++ pyNumRepr confidence_score

/-- `f"Low AI confidence: {confidence_score}"`. -/
def lowConfWarnMsg (confidence_score : ℚ) : String :=
  "Low AI confidence: " ++ pyNumRepr confidence_score

/-- `f"Vendor '{vendor_name}' doesn't match email sender '{email_sender}'"`. -/
def vendorMismatchMsg (vendor_name email_sender : String) : String :=
  "Vendor '" ++ vendor_name ++ "' doesn't match email sender '" ++
    email_sender ++ "'"

/-- `f"Amount ${total_amount} outside typical range ${min_amount}-${max_amount}
for {vendor}"`. -/
def amountRangeMsg (total_amount min_amount max_amount : ℚ) (vendor : String) : String :=
  "Amount $" ++ pyNumRepr total_amount ++ " outside typical range $" ++
    pyNumRepr min_amount ++ "-$" ++ pyNumRepr max_amount ++ " for " ++ vendor

/-! ### The rule functions of `InvoiceValidationService` -/

/-- The guard `not invoice_number or invoice_number in ['None', 'null', '']`
of Rule 1: the invoice number cannot be used for a duplicate lookup. -/
def invoiceNumberUnusable (invoice_number : Option String) : Bool :=
  !pyTruthyS invoice_number ||
  (match invoice_number with
   | none => false
   | some s => decide (s ∈ ["None", "null", ""]))

/-- Rule 1 (`_check_duplicate_invoice_id`): check whether the
`invoice_number` + `vendor_name` combination already exists for the user.
Returns `true` when the invoice may proceed (no duplicate found, or the check
was skipped because the invoice number or vendor name is unusable). -/
def checkDuplicateInvoiceId (db : Store) (invoice_number vendor_name : Option String)
    (user_id : String) : Bool :=
  if invoiceNumberUnusable invoice_number then
    true
  else if !pyTruthyS vendor_name then
    true
  else
    !db.hasInvoice user_id (vendor_name.getD "") (invoice_number.getD "")

/-- Rule 2 (`_check_duplicate_email_message`): a falsy `email_message_id`
fails the check outright; otherwise consult the store. Returns `true` when the
invoice may proceed. -/
def checkDuplicateEmailMessage (db : Store) (email_message_id : Option String)
    (user_id : String) : Bool :=
  if !pyTruthyS email_message_id then
    false
  else
    !db.hasMessage user_id (email_message_id.getD "")

/-- Rule 3 (`_validate_required_fields`): the returned error list (the source
also returns `valid = (len(errors) == 0)`, recovered here as `.isEmpty`). -/
def validateRequiredFields (d : InvoiceData) : List String :=
  (if !pyTruthyS d.vendor_name then ["Missing required field: vendor_name"] else []) ++
  (if (match d.total_amount with
       | none => true
       | some a => decide (a ≤ mkRat 0 1)) then
     ["Missing or invalid required field: total_amount"]
   else [])

/-- Rules 4-6 (`_classify_document`). Each `for` loop of the source returns a
fixed constant on its first hit and otherwise falls through, and its inner
guard does not depend on the loop variable, so each loop is exactly an
existential (`List.any`) test. -/
def classifyDocument (email_subject email_sender vendor_name : String) : DocumentType :=
  let subject_lower := pyLower email_subject.data
  let sender_lower := pyLower email_sender.data
  let vendor_lower := pyLower vendor_name.data
  if PAYMENT_NOTIFICATION_KEYWORDS.any (fun kw =>
       listInf kw.data subject_lower &&
       ["transfi", "stripe", "paypal", "square"].any (fun p =>
         listInf p.data sender_lower)) then
    DocumentType.PAYMENT_NOTIFICATION
  else if PAYMENT_RECEIPT_KEYWORDS.any (fun kw => listInf kw.data subject_lower) then
    DocumentType.PAYMENT_RECEIPT
  else if INVOICE_KEYWORDS.any (fun kw =>
       listInf kw.data subject_lower &&
       (listInf vendor_lower sender_lower ||
        ["billing@", "invoices@", "noreply@", "accounts@"].any (fun dm =>
          listInf dm.data sender_lower))) then
    DocumentType.INVOICE
  else
    DocumentType.UNKNOWN

/-- Rule 10's vendor scan: first vendor whose key occurs in the lowercased
vendor name decides (and `break`s); out-of-range amounts warn and flag
review. -/
def vendorRangeScan (vendor_name : List Char) (total_amount : ℚ) :
    List (String × ℚ × ℚ) → List String × Bool
  | [] => ([], false)
  | (vendor, min_amount, max_amount) :: rest =>
    if listInf vendor.data vendor_name then
      if total_amount < min_amount || max_amount < total_amount then
        ([amountRangeMsg total_amount min_amount max_amount vendor], true)
      else
        ([], false)
    else
      vendorRangeScan vendor_name total_amount rest

/-- Rules 10-12 (`_validate_business_logic`): returns `(warnings,
requires_review)`. Rule 11 works on the modelled `invoice_date` field: an
unparseable date string warns and returns immediately; a parsed date is
compared against `now` and `now - 730 days` (730 days = 63072000 seconds). -/
def validateBusinessLogic (d : InvoiceData) (now : ℚ) : List String × Bool :=
  let vendor_name := pyLower (d.vendor_name.getD "").data
  let total_amount := d.total_amount.getD (mkRat 0 1)
  let range := vendorRangeScan vendor_name total_amount VENDOR_AMOUNT_RANGES
  match d.invoice_date with
  | none => range
  | some none => (range.1 ++ ["Invalid invoice date format"], true)
  | some (some invoice_date) =>
    let futureWarn := if now < invoice_date then ["Future invoice date detected"] else []
    let oldWarn :=
      if invoice_date < ratSub now (mkRat 63072000 1) then
        ["Very old invoice date (>2 years)"]
      else []
    (range.1 ++ futureWarn ++ oldWarn,
     range.2 || !futureWarn.isEmpty || !oldWarn.isEmpty)

/-- The digit-only pattern `^\d{8}$`. -/
def isDate8 (s : List Char) : Bool :=
  s.length == 8 && s.all Char.isDigit

/-- The pattern `^\d{6}-\d{8}$`. -/
def isDate68 (s : List Char) : Bool :=
  let front := s.take 6
  let rest := s.drop 6
  front.length == 6 && front.all Char.isDigit &&
  (match rest with
   | '-' :: tail => tail.length == 8 && tail.all Char.isDigit
   | _ => false)

/-- The dict returned by `_validate_gemini_results`. -/
structure AIValidation where
  valid : Bool
  errors : List String
  warnings : List String
  requires_review : Bool
deriving DecidableEq, Repr

/-- Rule 13 (the confidence-threshold block of `_validate_gemini_results`):
`(valid, errors, warnings, requires_review)` contribution. -/
def confCheck (confidence_score : ℚ) : Bool × List String × List String × Bool :=
  if confidence_score < mkRat 1 2 then
    (false, [confLowMsg confidence_score], [], false)
  else if confidence_score < mkRat 7 10 then
    (true, [], [lowConfWarnMsg confidence_score], true)
  else
    (true, [], [], false)

/-- Rule 14 (sender-vendor consistency): `(warnings, requires_review)`
contribution. -/
def senderVendorCheck (vendor_name email_sender : String) : List String × Bool :=
  if !vendor_name.data.isEmpty && !email_sender.data.isEmpty then
    if !listInf (pyLower vendor_name.data) (pyLower email_sender.data) &&
       !(["billing@", "invoices@", "noreply@"].any (fun dm =>
           listInf dm.data (pyLower email_sender.data))) then
      ([vendorMismatchMsg vendor_name email_sender], true)
    else
      ([], false)
  else
    ([], false)

/-- Rule 15, first check (auto-generated `GEMINI-` prefix): `(valid, errors)`
contribution. The `if invoice_number:` truthiness guard of the source is
distributed over this and the next check. -/
def invoiceNumberAutogen (invoice_number : String) : Bool × List String :=
  if !invoice_number.data.isEmpty && listPre "GEMINI-".data invoice_number.data then
    (false, ["Auto-generated invoice number detected"])
  else
    (true, [])

/-- Rule 15, second check (date-shaped invoice numbers): `(warnings,
requires_review)` contribution. -/
def invoiceNumberDatePattern (invoice_number : String) : List String × Bool :=
  if !invoice_number.data.isEmpty &&
      (isDate8 invoice_number.data || isDate68 invoice_number.data) then
    (["Suspicious invoice number format (date pattern)"], true)
  else
    ([], false)

/-- Rules 13-15 (`_validate_gemini_results`). Note the confidence default is
`0` here (`invoice_data.get("confidence_score", 0)`), unlike the default of
`1.0` used upstream in `_validate_gemini_response`. -/
def validateGeminiResults (d : InvoiceData) : AIValidation :=
  { valid := (confCheck (d.confidence_score.getD (mkRat 0 1))).1 &&
             (invoiceNumberAutogen (d.invoice_number.getD "")).1,
    errors := (confCheck (d.confidence_score.getD (mkRat 0 1))).2.1 ++
              (invoiceNumberAutogen (d.invoice_number.getD "")).2,
    warnings := (confCheck (d.confidence_score.getD (mkRat 0 1))).2.2.1 ++
                (senderVendorCheck (d.vendor_name.getD "") (d.email_sender.getD "")).1 ++
                (invoiceNumberDatePattern (d.invoice_number.getD "")).1,
    requires_review := (confCheck (d.confidence_score.getD (mkRat 0 1))).2.2.2 ||
                       (senderVendorCheck (d.vendor_name.getD "") (d.email_sender.getD "")).2 ||
                       (invoiceNumberDatePattern (d.invoice_number.getD "")).2 }

/-- `validate_invoice`: the ordered, short-circuiting rule pipeline. -/
def validateInvoice (db : Store) (invoice_data : InvoiceData) (user_id : String)
    (now : ℚ) : ValidationResult :=
  if !checkDuplicateInvoiceId db invoice_data.invoice_number invoice_data.vendor_name user_id then
    { is_valid := false, should_save := false,
      errors := [dupInvoiceMsg invoice_data.invoice_number invoice_data.vendor_name] }
  else if !checkDuplicateEmailMessage db invoice_data.email_message_id user_id then
    { is_valid := false, should_save := false,
      errors := [dupEmailMsg invoice_data.email_message_id] }
  else if !(validateRequiredFields invoice_data).isEmpty then
    { is_valid := false, should_save := false,
      errors := validateRequiredFields invoice_data }
  else if classifyDocument (invoice_data.email_subject.getD "")
      (invoice_data.email_sender.getD "") (invoice_data.vendor_name.getD "") =
      DocumentType.PAYMENT_NOTIFICATION then
    { is_valid := false, should_save := false,
      errors := [docClassMsg (classifyDocument (invoice_data.email_subject.getD "")
        (invoice_data.email_sender.getD "") (invoice_data.vendor_name.getD ""))],
      classification := some (classifyDocument (invoice_data.email_subject.getD "")
        (invoice_data.email_sender.getD "") (invoice_data.vendor_name.getD "")) }
  else
    { is_valid := (validateGeminiResults invoice_data).valid,
      should_save := (validateGeminiResults invoice_data).valid,
      errors := if (validateGeminiResults invoice_data).valid then []
                else (validateGeminiResults invoice_data).errors,
      warnings := (validateBusinessLogic invoice_data now).1 ++
                  (validateGeminiResults invoice_data).warnings,
      classification := some (classifyDocument (invoice_data.email_subject.getD "")
        (invoice_data.email_sender.getD "") (invoice_data.vendor_name.getD "")),
      requires_manual_review := (validateBusinessLogic invoice_data now).2 ||
                                (validateGeminiResults invoice_data).requires_review }


/-! ### `services/gemini_invoice_processor.py`: response normalization

`_parse_gemini_response` cleans the raw model output and recovers a JSON
value: a direct `json.loads` first, then five regex extraction strategies in a
fixed order, each of whose matches is tried with `json.loads` until one
parses; if everything fails it returns an error dict carrying the first 500
characters of the raw response. -/

/-- JSON values as recovered by `json.loads`. Python ints and floats are both
modelled as `ℚ`; an object keeps its key/value pairs in parse order (the
inputs evaluated here carry no duplicate keys). -/
inductive JVal where
  | null
  | bool (b : Bool)
  | num (q : ℚ)
  | str (s : String)
  | arr (elems : List JVal)
  | obj (fields : List (String × JVal))

/-- The keys of an object value (used to tell two parse results apart). -/
def objKeys : JVal → List String
  | .obj fields => fields.map Prod.fst
  | _ => []

/-- JSON interelement whitespace (what `json.loads` skips): space, tab,
newline, carriage return. -/
def jsonWs (c : Char) : Bool :=
  c == ' ' || c == '\t' || c == '\n' || c == '\r'

/-- Skip JSON whitespace. -/
def skipJsonWs (cs : List Char) : List Char := cs.dropWhile jsonWs

/-- Hexadecimal digit value. -/
def hexVal (c : Char) : Option Nat :=
  if '0' ≤ c && c ≤ '9' then some (c.toNat - 48)
  else if 'a' ≤ c && c ≤ 'f' then some (c.toNat - 87)
  else if 'A' ≤ c && c ≤ 'F' then some (c.toNat - 55)
  else none

/-- Body of a JSON string after the opening quote: strict `json.loads`
semantics — the listed escapes and `\uXXXX` are honoured, unescaped control
characters are an error. -/
def parseJStringAux (acc : List Char) : List Char → Option (String × List Char)
  | [] => none
  | '"' :: rest => some (String.mk acc.reverse, rest)
  | '\\' :: 'u' :: h1 :: h2 :: h3 :: h4 :: rest =>
    (match hexVal h1, hexVal h2, hexVal h3, hexVal h4 with
     | some a, some b, some c, some d =>
       parseJStringAux (Char.ofNat (((a * 16 + b) * 16 + c) * 16 + d) :: acc) rest
     | _, _, _, _ => none)
  | '\\' :: e :: rest =>
    (match
        (match e with
         | '"' => some '"'
         | '\\' => some '\\'
         | '/' => some '/'
         | 'b' => some (Char.ofNat 8)
         | 'f' => some (Char.ofNat 12)
         | 'n' => some '\n'
         | 'r' => some '\r'
         | 't' => some '\t'
         | _ => none) with
     | some c => parseJStringAux (c :: acc) rest
     | none => none)
  | c :: rest =>
    if c.toNat < 32 then none else parseJStringAux (c :: acc) rest

/-- Decimal digits to a natural number. -/
def digitsToNat (ds : List Char) : Nat :=
  ds.foldl (fun a c => a * 10 + (c.toNat - 48)) 0

/-- Assemble a JSON number from sign, mantissa digits (integer and fraction
parts concatenated), fraction length and exponent. -/
def mkJNum (neg : Bool) (mantissa : List Char) (fracLen : Nat) (ex : Int) : JVal :=
  let m : Int := Int.ofNat (digitsToNat mantissa)
  let m := if neg then -m else m
  let scale : Int := ex - Int.ofNat fracLen
  if 0 ≤ scale then JVal.num (mkRat (m * Int.ofNat (10 ^ scale.toNat)) 1)
  else JVal.num (mkRat m (10 ^ (-scale).toNat))

/-- JSON number grammar `-? int frac? exp?` with the strict `json.loads`
rules (no leading zeros, a fraction/exponent must have digits). The
non-finite extensions `Infinity`/`NaN` have no `ℚ` counterpart and are
treated as parse failures. -/
def parseJNum (cs : List Char) : Option (JVal × List Char) :=
  let p := match cs with
    | '-' :: r => (true, r)
    | _ => (false, cs)
  let ip := p.2.takeWhile Char.isDigit
  let r1 := p.2.dropWhile Char.isDigit
  if ip.isEmpty then none
  else if decide (1 < ip.length) && ip.head? == some '0' then none
  else
    let f := match r1 with
      | '.' :: r => (true, r.takeWhile Char.isDigit, r.dropWhile Char.isDigit)
      | _ => (false, [], r1)
    if f.1 && f.2.1.isEmpty then none
    else
      match f.2.2 with
      | 'e' :: r | 'E' :: r =>
        let es := match r with
          | '+' :: rr => ((1 : Int), rr)
          | '-' :: rr => ((-1 : Int), rr)
          | _ => ((1 : Int), r)
        let ed := es.2.takeWhile Char.isDigit
        let r5 := es.2.dropWhile Char.isDigit
        if ed.isEmpty then none
        else some (mkJNum p.1 (ip ++ f.2.1) f.2.1.length (es.1 * Int.ofNat (digitsToNat ed)), r5)
      | r2 => some (mkJNum p.1 (ip ++ f.2.1) f.2.1.length 0, r2)

/-- Parser modes: a value, the members of an object after its `{`, or the
elements of an array after its `[` (with the members accumulated so far). -/
inductive JMode where
  | value
  | objMem (acc : List (String × JVal))
  | arrMem (acc : List JVal)

/-- Recursive-descent `json.loads` core, fuelled so that the recursion is
structural (every recursive call consumes fuel; parsing a document of length
`n` makes at most `4n + 16` calls, the fuel `jsonParseL` supplies). -/
def parseJ : Nat → JMode → List Char → Option (JVal × List Char)
  | 0, _, _ => none
  | fuel + 1, .value, cs =>
    (match skipJsonWs cs with
     | [] => none
     | '{' :: rest =>
       (match skipJsonWs rest with
        | '}' :: r2 => some (JVal.obj [], r2)
        | _ => parseJ fuel (.objMem []) rest)
     | '[' :: rest =>
       (match skipJsonWs rest with
        | ']' :: r2 => some (JVal.arr [], r2)
        | _ => parseJ fuel (.arrMem []) rest)
     | '"' :: rest =>
       (match parseJStringAux [] rest with
        | some (s, r) => some (JVal.str s, r)
        | none => none)
     | 't' :: 'r' :: 'u' :: 'e' :: rest => some (JVal.bool true, rest)
     | 'f' :: 'a' :: 'l' :: 's' :: 'e' :: rest => some (JVal.bool false, rest)
     | 'n' :: 'u' :: 'l' :: 'l' :: rest => some (JVal.null, rest)
     | cs2 => parseJNum cs2)
  | fuel + 1, .objMem acc, cs =>
    (match skipJsonWs cs with
     | '"' :: rest =>
       (match parseJStringAux [] rest with
        | none => none
        | some (key, r1) =>
          (match skipJsonWs r1 with
           | ':' :: r2 =>
             (match parseJ fuel .value r2 with
              | none => none
              | some (v, r3) =>
                (match skipJsonWs r3 with
                 | ',' :: r4 => parseJ fuel (.objMem ((key, v) :: acc)) r4
                 | '}' :: r4 => some (JVal.obj ((key, v) :: acc).reverse, r4)
                 | _ => none))
           | _ => none))
     | _ => none)
  | fuel + 1, .arrMem acc, cs =>
    (match parseJ fuel .value cs with
     | none => none
     | some (v, r1) =>
       (match skipJsonWs r1 with
        | ',' :: r2 => parseJ fuel (.arrMem (v :: acc)) r2
        | ']' :: r2 => some (JVal.arr (v :: acc).reverse, r2)
        | _ => none))

/-- `json.loads` on a character list: parse one value and require only
whitespace after it. -/
def jsonParseL (cs : List Char) : Option JVal :=
  match parseJ (4 * cs.length + 16) .value cs with
  | some (v, rest) => if (skipJsonWs rest).isEmpty then some v else none
  | none => none

/-- Whitespace-run collapsing (`re.sub(r'\s+', ' ', ...)`): every maximal run
of whitespace becomes a single space. The flag records whether the previous
character was whitespace. -/
def collapseWsAux : Bool → List Char → List Char
  | _, [] => []
  | prevWs, c :: cs =>
    if pyWs c then
      if prevWs then collapseWsAux true cs
      else ' ' :: collapseWsAux true cs
    else c :: collapseWsAux false cs

/-- The cleaning `_parse_gemini_response` applies before any parse attempt:
`strip()`, remove `[\x00-\x1f\x7f-\x9f]`, replace `\n`/`\r` by spaces (a
no-op here: both were just removed as control characters), collapse `\s+`
runs to single spaces. -/
def cleanGeminiResponse (response : String) : List Char :=
  collapseWsAux false ((pyStripL response.data).filter (fun c => !pyCtrl c))

/-- The backquote character (the code-fence delimiter). -/
def btick : Char := Char.ofNat 96

/-- Open a code fence at this position: consume ` ``` ` and, for the first
pattern, the case-insensitive label `json` (`re.IGNORECASE`). -/
def fenceOpen (requireJson : Bool) (cs : List Char) : Option (List Char) :=
  match cs with
  | a :: b :: c :: rest =>
    if a == btick && b == btick && c == btick then
      if requireJson then
        match rest with
        | p :: q :: r :: s :: r2 =>
          if pyLower [p, q, r, s] == "json".data then some r2 else none
        | _ => none
      else some rest
    else none
  | _ => none

/-- After the group's closing brace the fence patterns require `\s*` then
` ``` `; returns the remainder after that closing fence when present. -/
def fenceClose (cs : List Char) : Option (List Char) :=
  match cs.dropWhile pyWs with
  | a :: b :: c :: rest =>
    if a == btick && b == btick && c == btick then some rest else none
  | _ => none

/-- The lazy group `(\{.*?\})` of the fence patterns: with `re.DOTALL`, the
group ends at the first `}` that is followed by the closing fence. -/
def fenceGroupAux (acc : List Char) : List Char → Option (List Char × List Char)
  | [] => none
  | c :: cs =>
    if c == '}' then
      match fenceClose cs with
      | some rest => some ((c :: acc).reverse, rest)
      | none => fenceGroupAux (c :: acc) cs
    else fenceGroupAux (c :: acc) cs

/-- One match attempt of `` r'```json\s*(\{.*?\})\s*```' `` (or its unlabeled
variant) at the current position: open fence, greedy `\s*`, `{`, lazy body,
`}`, `\s*`, closing fence. Returns the captured group and the remainder after
the whole match. -/
def fenceAt (requireJson : Bool) (cs : List Char) : Option (List Char × List Char) :=
  match fenceOpen requireJson cs with
  | none => none
  | some afterOpen =>
    match afterOpen.dropWhile pyWs with
    | '{' :: inner => fenceGroupAux ['{'] inner
    | _ => none

/-- One match attempt of the balanced-brace patterns
`` r'\{[^{}]*(?:\{[^{}]*\}[^{}]*)*\}' `` and `` r'\{(?:[^{}]|{[^{}]*})*\}' ``
at the current position. Both regexes denote the same language — a brace
block whose content interleaves non-brace characters with single-level
`{...}` blocks (the standard identity `(a|b)* = a*(ba*)*` connects the two
forms) — so one scanner serves both patterns: after the opening `{`, walk the
content tracking whether an inner block is open; a second nested `{` kills
the attempt, and the first top-level `}` closes the match. -/
def balScanAux (inDepth : Bool) (acc : List Char) : List Char → Option (List Char × List Char)
  | [] => none
  | c :: cs =>
    if c == '{' then
      if inDepth then none
      else balScanAux true (c :: acc) cs
    else if c == '}' then
      if inDepth then balScanAux false (c :: acc) cs
      else some ((c :: acc).reverse, cs)
    else balScanAux inDepth (c :: acc) cs

/-- Attempt a balanced-brace match at the current position. -/
def balancedAt : List Char → Option (List Char × List Char)
  | '{' :: rest => balScanAux false ['{'] rest
  | _ => none

/-- One match attempt of `` r'\{.*?\}' `` (`re.DOTALL`) at the current
position: from a `{`, the lazy body ends at the very first `}`. -/
def lazyBraceAt : List Char → Option (List Char × List Char)
  | '{' :: rest =>
    (match rest.dropWhile (fun c => !(c == '}')) with
     | '}' :: r2 => some ('{' :: rest.takeWhile (fun c => !(c == '}')) ++ ['}'], r2)
     | _ => none)
  | _ => none

/-- `re.findall` scanning: try a match at each position left to right; on a
match, emit its captured text and resume after the match (non-overlapping),
otherwise advance one character. Fuelled with the text length so the
recursion is structural. -/
def reFindAll (att : List Char → Option (List Char × List Char)) :
    Nat → List Char → List String
  | 0, _ => []
  | _ + 1, [] => []
  | fuel + 1, c :: cs =>
    match att (c :: cs) with
    | some (grp, rest) => String.mk grp :: reFindAll att fuel rest
    | none => reFindAll att fuel cs

/-- `re.findall` for pattern 1, `` r'```json\s*(\{.*?\})\s*```' ``. -/
def findFencedJson (cs : List Char) : List String :=
  reFindAll (fenceAt true) (cs.length + 1) cs

/-- `re.findall` for pattern 2, `` r'```\s*(\{.*?\})\s*```' ``. -/
def findFencedAny (cs : List Char) : List String :=
  reFindAll (fenceAt false) (cs.length + 1) cs

/-- `re.findall` for patterns 3 and 4 (the two balanced-brace regexes denote
the same matcher, see `balScanAux`). -/
def findBalanced (cs : List Char) : List String :=
  reFindAll balancedAt (cs.length + 1) cs

/-- `re.findall` for pattern 5, `` r'\{.*?\}' ``. -/
def findLazyBrace (cs : List Char) : List String :=
  reFindAll lazyBraceAt (cs.length + 1) cs

/-- The `json_patterns` list: each pattern's matches against the cleaned
response, in the source's order. -/
def geminiPatternMatches (cleaned : List Char) : List (List String) :=
  [findFencedJson cleaned,
   findFencedAny cleaned,
   findBalanced cleaned,
   findBalanced cleaned,
   findLazyBrace cleaned]

/-- `json.loads(match.strip())` for one regex match. -/
def tryMatchParse (m : String) : Option JVal :=
  jsonParseL (pyStripL m.data)

/-- The inner `for match in matches` loop: first match that parses wins. -/
def firstMatchParse : List String → Option JVal
  | [] => none
  | m :: rest =>
    match tryMatchParse m with
    | some v => some v
    | none => firstMatchParse rest

/-- The outer `for pattern in json_patterns` loop. -/
def firstPatternParse : List (List String) → Option JVal
  | [] => none
  | ms :: rest =>
    match firstMatchParse ms with
    | some v => some v
    | none => firstPatternParse rest

/-- The failure dict
`{"error": "Failed to parse valid JSON from Gemini response",
"raw_response": response[:500]}`. -/
def parseFailObj (response : String) : JVal :=
  JVal.obj [("error", JVal.str "Failed to parse valid JSON from Gemini response"),
            ("raw_response", JVal.str (String.mk (response.data.take 500)))]

/-- `_parse_gemini_response`: clean, direct parse, the five extraction
patterns in order, else the failure dict. -/
def parseGeminiResponse (response : String) : JVal :=
  match jsonParseL (cleanGeminiResponse response) with
  | some result => result
  | none =>
    match firstPatternParse (geminiPatternMatches (cleanGeminiResponse response)) with
    | some result => result
    | none => parseFailObj response

/-! ### Spec-side restatements of the normalizer strategy order -/

/-- The spec's description of the fallback ordering, with every pattern's
candidate substrings flattened into one priority-ordered list and the first
parsing candidate returned. -/
def parsePriority (response : String) : JVal :=
  match jsonParseL (cleanGeminiResponse response) with
  | some result => result
  | none =>
    match firstMatchParse ((geminiPatternMatches (cleanGeminiResponse response)).foldr
        (fun a b => a ++ b) []) with
    | some result => result
    | none => parseFailObj response

/-- The largest element of a candidate list (ties resolved to the earlier
one), as a candidate list. -/
def largestOf (ms : List String) : List String :=
  match ms.foldl (fun best m =>
    match best with
    | none => some m
    | some b => if b.data.length < m.data.length then some m else best) none with
  | none => []
  | some m => [m]

/-- The claim's reading of the strategy list, in which the balanced-brace
step contributes THE LARGEST balanced-brace substring as its candidate
(claim C8's wording), rather than every balanced-brace match leftmost-first. -/
def parsePriorityClaim (response : String) : JVal :=
  match jsonParseL (cleanGeminiResponse response) with
  | some result => result
  | none =>
    match firstMatchParse
        (findFencedJson (cleanGeminiResponse response) ++
         findFencedAny (cleanGeminiResponse response) ++
         largestOf (findBalanced (cleanGeminiResponse response)) ++
         findLazyBrace (cleanGeminiResponse response)) with
    | some result => result
    | none => parseFailObj response

/-! ### `_validate_gemini_response` and the retry loop -/

/-- A Python value sitting in the `total_amount` slot of a parsed response:
a number or a string (the validator handles both). -/
inductive PyAmount where
  | num (q : ℚ)
  | str (s : String)
deriving DecidableEq, Repr

/-- The parsed response dict as read by `_validate_gemini_response` and the
retry loop: only these keys are consulted (each via `.get`, so an absent key
and a `null` value coincide). -/
structure GeminiMapping where
  error : Option String := none
  vendor_name : Option String := none
  total_amount : Option PyAmount := none
  confidence_score : Option ℚ := none
deriving DecidableEq, Repr

/-- Python truthiness of the `total_amount` slot: `None`, `""` and `0` are
falsy. -/
def pyTruthyAmount : Option PyAmount → Bool
  | none => false
  | some (.num q) => !decide (q = mkRat 0 1)
  | some (.str s) => !s.data.isEmpty

/-- Equality of the `total_amount` slot with a string literal (Python `==`:
a number never equals a string). -/
def amountIs (o : Option PyAmount) (t : String) : Bool :=
  match o with
  | some (.str s) => s == t
  | _ => false

/-- Strip currency symbols and thousands separators:
`.replace('$','').replace('€','').replace('£','').replace(',','')`. -/
def removeCurrency (s : List Char) : List Char :=
  s.filter (fun c => !(c == '$' || c == '€' || c == '£' || c == ','))

/-- Python `float(str)` on the grammar that reaches this call: optional sign,
digits with optional fraction, optional exponent (the `inf`/`nan`/underscore
forms have no role here and are treated as failures, i.e. `ValueError`). -/
def pyFloatOfString (cs : List Char) : Option ℚ :=
  let cs := pyStripL cs
  let p := match cs with
    | '-' :: r => (true, r)
    | '+' :: r => (false, r)
    | _ => (false, cs)
  let ip := p.2.takeWhile Char.isDigit
  let r1 := p.2.dropWhile Char.isDigit
  let f := match r1 with
    | '.' :: r => (r.takeWhile Char.isDigit, r.dropWhile Char.isDigit)
    | _ => ([], r1)
  if ip.isEmpty && f.1.isEmpty then none
  else
    let e := match f.2 with
      | 'e' :: r | 'E' :: r =>
        (let es := match r with
          | '+' :: rr => ((1 : Int), rr)
          | '-' :: rr => ((-1 : Int), rr)
          | _ => ((1 : Int), r)
         let ed := es.2.takeWhile Char.isDigit
         if ed.isEmpty then none
         else some (es.1 * Int.ofNat (digitsToNat ed), es.2.dropWhile Char.isDigit))
      | r2 => some ((0 : Int), r2)
    match e with
    | none => none
    | some (ex, r3) =>
      if !r3.isEmpty then none
      else
        let m : Int := Int.ofNat (digitsToNat (ip ++ f.1))
        let m := if p.1 then -m else m
        let scale : Int := ex - Int.ofNat f.1.length
        if 0 ≤ scale then some (mkRat (m * Int.ofNat (10 ^ scale.toNat)) 1)
        else some (mkRat m (10 ^ (-scale).toNat))

/-- The amount-coercion block of `_validate_gemini_response`: a string is
cleaned of currency symbols/commas and stripped; the textual free-service
forms map to `0.0`; otherwise `float()` decides. A number passes through. -/
def amountToFloat : PyAmount → Option ℚ
  | .str total_amount =>
    let clean_amount := pyStripL (removeCurrency total_amount.data)
    if decide (String.mk (pyLower clean_amount) ∈
        ["free", "no charge", "complimentary", "", "null"]) then
      some (mkRat 0 1)
    else
      pyFloatOfString clean_amount
  | .num q => some q

/-- `_validate_gemini_response`: `True` means the parsed dict is accepted as
an invoice candidate. Note the non-invoice signal (`vendor_name` and
`total_amount` both null) returns `False` in the very first branch, and the
confidence default HERE is `1.0`. -/
def validateGeminiResponse (response_data : GeminiMapping) : Bool :=
  if response_data.vendor_name.isNone && response_data.total_amount.isNone then false
  else if pyTruthyS response_data.vendor_name &&
          !pyTruthyAmount response_data.total_amount then false
  else if !pyTruthyS response_data.vendor_name ||
          decide (String.mk (pyLower ((response_data.vendor_name.getD "").data)) ∈
            ["string", "unknown", ""]) ||
          decide ((pyStripL (pyStrOf response_data.vendor_name).data).length < 2) then false
  else if response_data.total_amount.isNone || amountIs response_data.total_amount "" ||
          amountIs response_data.total_amount "null" then false
  else
    match amountToFloat (response_data.total_amount.getD (.num (mkRat 0 1))) with
    | none => false
    | some amount_float =>
      if amount_float < mkRat (-10000) 1 then false
      else if (response_data.confidence_score.getD (mkRat 1 1)) < mkRat 2 10 then false
      else true

/-- The spec's three-valued validator outcome, as decided by the retry loop
of `_process_text_content` on one parsed attempt: the `if` accepts, the
`elif` detects the authoritative non-invoice signal, anything else retries
(INCOMPLETE). -/
inductive ROutcome where
  | ACCEPT
  | CONFIRMED_NON_INVOICE
  | INCOMPLETE
deriving DecidableEq, Repr

/-- The decision applied to each parsed attempt inside the retry loop:
`if not invoice_data.get('error') and self._validate_gemini_response(...)`
accepts; `elif invoice_data.get('vendor_name') is None and
invoice_data.get('total_amount') is None` is the terminal non-invoice
outcome; otherwise the attempt is incomplete. -/
def responseOutcome (invoice_data : GeminiMapping) : ROutcome :=
  if !pyTruthyS invoice_data.error && validateGeminiResponse invoice_data then
    ROutcome.ACCEPT
  else if invoice_data.vendor_name.isNone && invoice_data.total_amount.isNone then
    ROutcome.CONFIRMED_NON_INVOICE
  else
    ROutcome.INCOMPLETE

/-- Result of `_process_text_content`'s retry loop. -/
inductive ExtractResult where
  | success (invoice_data : GeminiMapping)
  | nonInvoice
  | failed
deriving DecidableEq, Repr

/-- The `for attempt in range(max_retries)` loop, abstracted over the parsed
outcome of each attempt (`none` models an attempt with no API response; the
source's `continue` on both no-response and incomplete attempts is the
recursive call). An accepted attempt returns its dict immediately; the
non-invoice signal returns immediately; exhausted attempts fail. -/
def processAttemptsLoop : Nat → List (Option GeminiMapping) → ExtractResult
  | 0, _ => ExtractResult.failed
  | _ + 1, [] => ExtractResult.failed
  | n + 1, attempt :: rest =>
    match attempt with
    | none => processAttemptsLoop n rest
    | some invoice_data =>
      match responseOutcome invoice_data with
      | ROutcome.ACCEPT => ExtractResult.success invoice_data
      | ROutcome.CONFIRMED_NON_INVOICE => ExtractResult.nonInvoice
      | ROutcome.INCOMPLETE => processAttemptsLoop n rest

/-- `_process_text_content`'s loop with the source's `max_retries = 2`. -/
def processTextContent (attempts : List (Option GeminiMapping)) : ExtractResult :=
  processAttemptsLoop 2 attempts

/-! ### Concrete inputs used by witnesses and counterexamples -/

/-- Scenario A's candidate (claim C7). -/
def figmaCandidate : InvoiceData :=
  { vendor_name := some "Figma", invoice_number := none,
    total_amount := some (mkRat 39 1), email_message_id := some "m1",
    confidence_score := some (mkRat 8 10),
    email_subject := some "Thank you for your payment!",
    email_sender := some "billing@figma.com" }

/-- A payment-receipt variant of the Figma candidate. -/
def figmaReceiptCandidate : InvoiceData :=
  { figmaCandidate with email_subject := some "Payment receipt" }

/-- Scenario B's candidate: a processor notification. -/
def figmaNotifCandidate : InvoiceData :=
  { figmaCandidate with
    email_subject := some "Payment failed notification",
    email_sender := some "noreply@transfi.com" }

/-- A store already holding `(u1, Datadog, DD-123)`. -/
def dupStore : Store :=
  ⟨fun u v n => u == "u1" && v == "Datadog" && n == "DD-123", fun _ _ => false⟩

/-- A candidate carrying the already-stored Datadog identity pair. -/
def datadogCandidate : InvoiceData :=
  { vendor_name := some "Datadog", invoice_number := some "DD-123",
    total_amount := some (mkRat 120 1), email_message_id := some "m9",
    confidence_score := some (mkRat 9 10),
    email_subject := some "Your Datadog invoice",
    email_sender := some "billing@datadog.com" }

/-- The all-`None` parsed mapping (the non-invoice signal). -/
def emptyMapping : GeminiMapping := {}

/-- The input refuting the "largest balanced-brace substring" reading of the
strategy list: two balanced objects, the leftmost smaller than the other. -/
def cexParseInput : String := "x \x7b\"a\": 1\x7d \x7b\"b\": 2, \"c\": 3\x7d"

/-- The Figma candidate with no confidence score at all (claim C10). -/
def noConfCandidate : InvoiceData :=
  { figmaCandidate with confidence_score := none }

/-- Whether a parsed value is a mapping (a JSON object). -/
def isJObj : JVal → Bool
  | .obj _ => true
  | _ => false

/-! ### Helper lemmas -/

/-- A nonempty string has nonempty character data. -/
theorem pyTruthyS_of_ne {s : String} (h : s ≠ "") : pyTruthyS (some s) = true := by
  cases s with
  | mk l =>
    cases l with
    | nil => exact absurd rfl h
    | cons c cs => rfl

/-- The low-confidence error never coincides with the auto-generated-number
error (their second characters differ). -/
theorem confLowMsg_ne_autogen (c : ℚ) :
    confLowMsg c ≠ "Auto-generated invoice number detected" := by
  intro h
  have h2 : (confLowMsg c).data.take 2 = "Auto-generated invoice number detected".data.take 2 := by
    rw [h]
  have h3 : (confLowMsg c).data.take 2 = ['A', 'I'] := rfl
  rw [h3] at h2
  exact absurd h2 (by decide)

/-- The classification error never coincides with the low-confidence error. -/
theorem docClassMsg_ne_confLowMsg (c : ℚ) :
    docClassMsg DocumentType.PAYMENT_NOTIFICATION ≠ confLowMsg c := by
  intro h
  have h2 : (docClassMsg DocumentType.PAYMENT_NOTIFICATION).data.take 2 =
      (confLowMsg c).data.take 2 := by rw [h]
  have h3 : (docClassMsg DocumentType.PAYMENT_NOTIFICATION).data.take 2 = ['D', 'o'] := rfl
  have h4 : (confLowMsg c).data.take 2 = ['A', 'I'] := rfl
  rw [h3, h4] at h2
  exact absurd h2 (by decide)

/-- The classification error never coincides with the auto-generated-number
error. -/
theorem docClassMsg_ne_autogen :
    docClassMsg DocumentType.PAYMENT_NOTIFICATION ≠ "Auto-generated invoice number detected" := by
  decide

/-- Rule 13 at a confidence below the floor. -/
theorem confCheck_lt {c : ℚ} (h : c < mkRat 1 2) :
    confCheck c = (false, [confLowMsg c], [], false) := by
  unfold confCheck
  rw [if_pos h]

/-- Rule 13 in the manual-review band. -/
theorem confCheck_mid {c : ℚ} (h1 : ¬ c < mkRat 1 2) (h2 : c < mkRat 7 10) :
    confCheck c = (true, [], [lowConfWarnMsg c], true) := by
  unfold confCheck
  rw [if_neg h1, if_pos h2]

/-- Rule 13 at a comfortable confidence. -/
theorem confCheck_hi {c : ℚ} (h1 : ¬ c < mkRat 1 2) (h2 : ¬ c < mkRat 7 10) :
    confCheck c = (true, [], [], false) := by
  unfold confCheck
  rw [if_neg h1, if_neg h2]

/-- Rule 15's error contribution is nothing or the auto-generated message. -/
theorem invoiceNumberAutogen_snd (n : String) :
    (invoiceNumberAutogen n).2 = [] ∨
    (invoiceNumberAutogen n).2 = ["Auto-generated invoice number detected"] := by
  unfold invoiceNumberAutogen
  split <;> simp

/-- When rules 1-3 pass and the classification is not a payment notification,
`validate_invoice` returns the final assembled verdict. -/
theorem validateInvoice_continue (db : Store) (d : InvoiceData) (u : String) (now : ℚ)
    (h1 : checkDuplicateInvoiceId db d.invoice_number d.vendor_name u = true)
    (h2 : checkDuplicateEmailMessage db d.email_message_id u = true)
    (h3 : validateRequiredFields d = [])
    (hc : classifyDocument (d.email_subject.getD "") (d.email_sender.getD "")
      (d.vendor_name.getD "") ≠ DocumentType.PAYMENT_NOTIFICATION) :
    validateInvoice db d u now =
      { is_valid := (validateGeminiResults d).valid,
        should_save := (validateGeminiResults d).valid,
        errors := if (validateGeminiResults d).valid then []
                  else (validateGeminiResults d).errors,
        warnings := (validateBusinessLogic d now).1 ++ (validateGeminiResults d).warnings,
        classification := some (classifyDocument (d.email_subject.getD "")
          (d.email_sender.getD "") (d.vendor_name.getD "")),
        requires_manual_review := (validateBusinessLogic d now).2 ||
          (validateGeminiResults d).requires_review } := by
  unfold validateInvoice
  rw [h1, h2, h3]
  simp [hc]

/-- A verdict that saves can only have come out of the final branch: all
earlier rules passed. -/
theorem validateInvoice_save_pass (db : Store) (d : InvoiceData) (u : String) (now : ℚ)
    (h : (validateInvoice db d u now).should_save = true) :
    checkDuplicateInvoiceId db d.invoice_number d.vendor_name u = true ∧
    checkDuplicateEmailMessage db d.email_message_id u = true ∧
    validateRequiredFields d = [] ∧
    classifyDocument (d.email_subject.getD "") (d.email_sender.getD "")
      (d.vendor_name.getD "") ≠ DocumentType.PAYMENT_NOTIFICATION := by
  unfold validateInvoice at h
  split_ifs at h with hh1 hh2 hh3 hh4 hh5
  all_goals
    exact ⟨by simpa using hh1, by simpa using hh2,
      by simpa [List.isEmpty_iff] using hh3, hh4⟩
/-- C1: whenever the `errors` list of the verdict returned by
`validate_invoice` is non-empty, `should_save` is false and `is_valid` is
false — every rule path that appends an error also clears `should_save`. -/
theorem errors_imply_not_saved (db : Store) (d : InvoiceData) (u : String) (now : ℚ)
    (h : (validateInvoice db d u now).errors ≠ []) :
    (validateInvoice db d u now).should_save = false ∧
    (validateInvoice db d u now).is_valid = false := by
  unfold validateInvoice at h ⊢
  split_ifs at h ⊢ with hh1 hh2 hh3 hh4 hh5
  · exact ⟨rfl, rfl⟩
  · exact ⟨rfl, rfl⟩
  · exact ⟨rfl, rfl⟩
  · exact ⟨rfl, rfl⟩
  · simp at h
  · exact ⟨by simpa using hh5, by simpa using hh5⟩

/-- Witness for C1: the empty candidate is rejected (rule 2) with a
non-empty error list, hence not saved and invalid. -/
theorem errors_imply_not_saved_witness :
    (validateInvoice emptyStore {} "u" (mkRat 0 1)).should_save = false ∧
    (validateInvoice emptyStore {} "u" (mkRat 0 1)).is_valid = false :=
  errors_imply_not_saved emptyStore {} "u" (mkRat 0 1) (by decide)
/-- C2: a candidate whose `email_message_id` is absent (falsy) is always
terminally rejected — with the rule-2 error whenever rule 1 passes — while an
absent/placeholder `invoice_number` makes rule 1 pass (the duplicate check is
skipped, never failed). -/
theorem message_id_asymmetry (db : Store) (d : InvoiceData) (u : String) (now : ℚ) :
    (pyTruthyS d.email_message_id = false →
      (validateInvoice db d u now).is_valid = false ∧
      (validateInvoice db d u now).should_save = false ∧
      (validateInvoice db d u now).errors ≠ [] ∧
      (checkDuplicateInvoiceId db d.invoice_number d.vendor_name u = true →
        (validateInvoice db d u now).errors = [dupEmailMsg d.email_message_id])) ∧
    (invoiceNumberUnusable d.invoice_number = true →
      checkDuplicateInvoiceId db d.invoice_number d.vendor_name u = true) := by
  constructor
  · intro hm
    have hc2 : checkDuplicateEmailMessage db d.email_message_id u = false := by
      unfold checkDuplicateEmailMessage
      rw [hm]
      simp
    unfold validateInvoice
    cases hb : checkDuplicateInvoiceId db d.invoice_number d.vendor_name u with
    | true => rw [hc2]; simp
    | false => simp
  · intro hu
    unfold checkDuplicateInvoiceId
    rw [if_pos hu]

/-- Witness for C2 at the empty candidate: rejected with the rule-2 error,
and its absent invoice number passes rule 1. -/
theorem message_id_asymmetry_witness :
    (validateInvoice emptyStore {} "u" (mkRat 0 1)).errors = [dupEmailMsg none] ∧
    checkDuplicateInvoiceId emptyStore none none "u" = true :=
  ⟨((message_id_asymmetry emptyStore {} "u" (mkRat 0 1)).1 rfl).2.2.2 (by decide),
   (message_id_asymmetry emptyStore {} "u" (mkRat 0 1)).2 (by decide)⟩
/-- C3: a candidate carrying a vendor/invoice-number pair already stored for
the user is terminally rejected by rule 1 with the duplicate error, whatever
its other fields hold. -/
theorem duplicate_pair_rejected (db : Store) (d : InvoiceData) (u : String) (now : ℚ)
    (n v : String)
    (hn : d.invoice_number = some n) (hv : d.vendor_name = some v)
    (hnp : n ∉ ["None", "null", ""]) (hvp : v ≠ "")
    (hdb : db.hasInvoice u v n = true) :
    validateInvoice db d u now =
      { is_valid := false, should_save := false,
        errors := [dupInvoiceMsg (some n) (some v)] } := by
  have hne : n ≠ "" := fun e => hnp (by rw [e]; decide)
  have h1 : checkDuplicateInvoiceId db d.invoice_number d.vendor_name u = false := by
    unfold checkDuplicateInvoiceId invoiceNumberUnusable
    rw [hn, hv, pyTruthyS_of_ne hne, pyTruthyS_of_ne hvp]
    simp [hdb, hnp]
  unfold validateInvoice
  rw [h1, hn, hv]
  simp

/-- Witness for C3: Scenario C, the stored `(u1, Datadog, DD-123)` pair. -/
theorem duplicate_pair_rejected_witness :
    validateInvoice dupStore datadogCandidate "u1" (mkRat 0 1) =
      { is_valid := false, should_save := false,
        errors := [dupInvoiceMsg (some "DD-123") (some "Datadog")] } :=
  duplicate_pair_rejected dupStore datadogCandidate "u1" (mkRat 0 1) "DD-123" "Datadog"
    rfl rfl (by decide) (by decide) (by decide)
/-- The AI-quality rules can only emit the confidence and autogenerated-number
errors; the classification error is never among them. -/
theorem docClassMsg_not_mem_ai (d : InvoiceData) :
    docClassMsg DocumentType.PAYMENT_NOTIFICATION ∉ (validateGeminiResults d).errors := by
  intro hmem
  unfold validateGeminiResults at hmem
  simp only at hmem
  rcases List.mem_append.mp hmem with hA | hB
  · unfold confCheck at hA
    split_ifs at hA with hl hm
    · rcases List.mem_singleton.mp hA with h
      exact docClassMsg_ne_confLowMsg _ h
    · exact absurd hA (List.not_mem_nil _)
    · exact absurd hA (List.not_mem_nil _)
  · rcases invoiceNumberAutogen_snd (d.invoice_number.getD "") with h | h
    · rw [h] at hB
      exact absurd hB (List.not_mem_nil _)
    · rw [h] at hB
      exact docClassMsg_ne_autogen (List.mem_singleton.mp hB)

/-- C4: for a candidate that reaches the classification rule, classification
as a payment notification is terminal (with exactly the classification
error), while `payment_receipt`/`unknown` classifications are never rejected
by the classification rule alone: the classification error cannot occur, and
any rejection comes from the AI-quality rules. -/
theorem classification_terminality (db : Store) (d : InvoiceData) (u : String)
    (now : ℚ) (c : DocumentType)
    (h1 : checkDuplicateInvoiceId db d.invoice_number d.vendor_name u = true)
    (h2 : checkDuplicateEmailMessage db d.email_message_id u = true)
    (h3 : validateRequiredFields d = [])
    (hc : classifyDocument (d.email_subject.getD "") (d.email_sender.getD "")
        (d.vendor_name.getD "") = c) :
    (c = DocumentType.PAYMENT_NOTIFICATION →
      validateInvoice db d u now =
        { is_valid := false, should_save := false,
          errors := [docClassMsg DocumentType.PAYMENT_NOTIFICATION],
          classification := some DocumentType.PAYMENT_NOTIFICATION }) ∧
    ((c = DocumentType.PAYMENT_RECEIPT ∨ c = DocumentType.UNKNOWN) →
      docClassMsg DocumentType.PAYMENT_NOTIFICATION ∉ (validateInvoice db d u now).errors ∧
      ((validateInvoice db d u now).should_save = false →
        (validateGeminiResults d).valid = false)) := by
  constructor
  · intro hcase
    rw [hcase] at hc
    unfold validateInvoice
    rw [h1, h2, h3, hc]
    simp
  · intro hcase
    have hne : classifyDocument (d.email_subject.getD "") (d.email_sender.getD "")
        (d.vendor_name.getD "") ≠ DocumentType.PAYMENT_NOTIFICATION := by
      rw [hc]
      rcases hcase with h | h <;> rw [h] <;> decide
    rw [validateInvoice_continue db d u now h1 h2 h3 hne]
    constructor
    · intro hmem
      simp only at hmem
      by_cases hv : (validateGeminiResults d).valid = true
      · rw [if_pos hv] at hmem
        exact absurd hmem (List.not_mem_nil _)
      · rw [if_neg hv] at hmem
        exact docClassMsg_not_mem_ai d hmem
    · intro hsave
      simpa using hsave

/-- Witness for C4: Scenario B's processor notification is terminally
rejected with the classification error; the payment-receipt variant never
sees the classification error. -/
theorem classification_terminality_witness :
    validateInvoice emptyStore figmaNotifCandidate "u1" (mkRat 0 1) =
      { is_valid := false, should_save := false,
        errors := [docClassMsg DocumentType.PAYMENT_NOTIFICATION],
        classification := some DocumentType.PAYMENT_NOTIFICATION } ∧
    docClassMsg DocumentType.PAYMENT_NOTIFICATION ∉
      (validateInvoice emptyStore figmaReceiptCandidate "u1" (mkRat 0 1)).errors :=
  ⟨(classification_terminality emptyStore figmaNotifCandidate "u1" (mkRat 0 1)
      DocumentType.PAYMENT_NOTIFICATION (by decide) (by decide) (by decide) (by decide)).1 rfl,
   ((classification_terminality emptyStore figmaReceiptCandidate "u1" (mkRat 0 1)
      DocumentType.PAYMENT_RECEIPT (by decide) (by decide) (by decide) (by decide)).2
      (Or.inl rfl)).1⟩
/-- C6: with all other fields fixed and none of the earlier rules rejecting,
a confidence below 0.5 terminally rejects with the confidence error; a
confidence in [0.5, 0.7) forces manual review with a warning and never emits
the confidence error; and lowering the confidence below 0.5 flips any
accepting verdict to a rejection. -/
theorem confidence_floor_monotonicity (db : Store) (d : InvoiceData) (u : String)
    (now : ℚ) (c c2 : ℚ)
    (h1 : checkDuplicateInvoiceId db d.invoice_number d.vendor_name u = true)
    (h2 : checkDuplicateEmailMessage db d.email_message_id u = true)
    (h3 : validateRequiredFields d = [])
    (hc : classifyDocument (d.email_subject.getD "") (d.email_sender.getD "")
        (d.vendor_name.getD "") ≠ DocumentType.PAYMENT_NOTIFICATION) :
    (c < mkRat 1 2 →
      (validateInvoice db { d with confidence_score := some c } u now).should_save = false ∧
      (validateInvoice db { d with confidence_score := some c } u now).is_valid = false ∧
      confLowMsg c ∈ (validateInvoice db { d with confidence_score := some c } u now).errors) ∧
    (mkRat 1 2 ≤ c → c < mkRat 7 10 →
      (validateInvoice db { d with confidence_score := some c } u now).requires_manual_review
        = true ∧
      lowConfWarnMsg c ∈
        (validateInvoice db { d with confidence_score := some c } u now).warnings ∧
      confLowMsg c ∉ (validateInvoice db { d with confidence_score := some c } u now).errors) ∧
    ((validateInvoice db { d with confidence_score := some c } u now).should_save = true →
      c2 < mkRat 1 2 →
      (validateInvoice db { d with confidence_score := some c2 } u now).should_save = false) := by
  have key : ∀ x : ℚ, validateInvoice db { d with confidence_score := some x } u now =
      { is_valid := (validateGeminiResults { d with confidence_score := some x }).valid,
        should_save := (validateGeminiResults { d with confidence_score := some x }).valid,
        errors := if (validateGeminiResults { d with confidence_score := some x }).valid then []
                  else (validateGeminiResults { d with confidence_score := some x }).errors,
        warnings := (validateBusinessLogic { d with confidence_score := some x } now).1 ++
          (validateGeminiResults { d with confidence_score := some x }).warnings,
        classification := some (classifyDocument (d.email_subject.getD "")
          (d.email_sender.getD "") (d.vendor_name.getD "")),
        requires_manual_review :=
          (validateBusinessLogic { d with confidence_score := some x } now).2 ||
          (validateGeminiResults { d with confidence_score := some x }).requires_review } :=
    fun x => validateInvoice_continue db { d with confidence_score := some x } u now h1 h2 h3 hc
  have reject : ∀ x : ℚ, x < mkRat 1 2 →
      (validateInvoice db { d with confidence_score := some x } u now).should_save = false ∧
      (validateInvoice db { d with confidence_score := some x } u now).is_valid = false ∧
      confLowMsg x ∈ (validateInvoice db { d with confidence_score := some x } u now).errors := by
    intro x hx
    rw [key x]
    unfold validateGeminiResults
    simp only [Option.getD_some]
    rw [confCheck_lt hx]
    simp
  refine ⟨reject c, ?_, ?_⟩
  · intro hge hlt
    rw [key c]
    unfold validateGeminiResults
    simp only [Option.getD_some]
    rw [confCheck_mid (not_lt.mpr hge) hlt]
    refine ⟨by simp, by simp, ?_⟩
    intro hmem
    simp only [Bool.true_and] at hmem
    by_cases hv : (invoiceNumberAutogen
        (({ d with confidence_score := some c } : InvoiceData).invoice_number.getD "")).1 = true
    · rw [if_pos hv] at hmem
      exact absurd hmem (List.not_mem_nil _)
    · rw [if_neg hv] at hmem
      rcases List.mem_append.mp hmem with hA | hB
      · exact absurd hA (List.not_mem_nil _)
      · rcases invoiceNumberAutogen_snd
            (({ d with confidence_score := some c } : InvoiceData).invoice_number.getD "")
            with h | h
        · rw [h] at hB
          exact absurd hB (List.not_mem_nil _)
        · rw [h] at hB
          exact confLowMsg_ne_autogen c (List.mem_singleton.mp hB)
  · intro _ hc2
    exact (reject c2 hc2).1

/-- Witness for C6 on the Figma candidate: confidence 0.3 rejects with the
confidence error, confidence 0.6 flags manual review. -/
theorem confidence_floor_monotonicity_witness :
    (validateInvoice emptyStore { figmaCandidate with confidence_score := some (mkRat 3 10) }
      "u1" (mkRat 0 1)).should_save = false ∧
    (validateInvoice emptyStore { figmaCandidate with confidence_score := some (mkRat 6 10) }
      "u1" (mkRat 0 1)).requires_manual_review = true :=
  ⟨((confidence_floor_monotonicity emptyStore figmaCandidate "u1" (mkRat 0 1)
      (mkRat 3 10) (mkRat 3 10) (by decide) (by decide) (by decide) (by decide)).1
      (by decide)).1,
   (((confidence_floor_monotonicity emptyStore figmaCandidate "u1" (mkRat 0 1)
      (mkRat 6 10) (mkRat 6 10) (by decide) (by decide) (by decide) (by decide)).2.1
      (by decide) (by decide)).1)⟩
/-- C7 counterexample: Scenario A's candidate (Figma, subject "Thank you for
your payment!") is classified `unknown` by the code, not `payment_receipt` as
the claim states — no receipt keyword occurs in that subject. -/
theorem scenarioA_receipt_classification_refuted :
    (validateInvoice emptyStore figmaCandidate "u1" (mkRat 0 1)).classification =
      some DocumentType.UNKNOWN ∧
    some DocumentType.UNKNOWN ≠ some DocumentType.PAYMENT_RECEIPT := by
  exact ⟨by decide, by decide⟩

/-- C7 as amended: Scenario A's candidate is saved (`should_save = true`)
with classification `unknown` (not `payment_receipt`): the full verdict. -/
theorem scenarioA_verdict :
    validateInvoice emptyStore figmaCandidate "u1" (mkRat 0 1) =
      { is_valid := true, errors := [], warnings := [],
        classification := some DocumentType.UNKNOWN,
        should_save := true, requires_manual_review := false } := by
  decide
/-- C5: a parsed mapping with `vendor_name` and `total_amount` both null is
refused by `_validate_gemini_response`, decided as the confirmed non-invoice
outcome (never ACCEPT or INCOMPLETE) by the retry loop, and returned
immediately — whatever later attempts would have produced. -/
theorem non_invoice_short_circuit (m : GeminiMapping) (rest : List (Option GeminiMapping))
    (h1 : m.vendor_name = none) (h2 : m.total_amount = none) :
    validateGeminiResponse m = false ∧
    responseOutcome m = ROutcome.CONFIRMED_NON_INVOICE ∧
    processTextContent (some m :: rest) = ExtractResult.nonInvoice := by
  have hv : validateGeminiResponse m = false := by
    unfold validateGeminiResponse
    rw [h1, h2]
    simp
  have ho : responseOutcome m = ROutcome.CONFIRMED_NON_INVOICE := by
    unfold responseOutcome
    rw [hv, h1, h2]
    simp
  refine ⟨hv, ho, ?_⟩
  unfold processTextContent processAttemptsLoop
  simp [ho]

/-- Witness for C5: the all-null mapping short-circuits the loop. -/
theorem non_invoice_short_circuit_witness :
    responseOutcome emptyMapping = ROutcome.CONFIRMED_NON_INVOICE ∧
    processTextContent [some emptyMapping] = ExtractResult.nonInvoice :=
  ⟨(non_invoice_short_circuit emptyMapping [] rfl rfl).2.1,
   (non_invoice_short_circuit emptyMapping [] rfl rfl).2.2⟩
/-- First-success search distributes over concatenation of candidate lists. -/
theorem firstMatchParse_append (a b : List String) :
    firstMatchParse (a ++ b) =
      match firstMatchParse a with
      | some v => some v
      | none => firstMatchParse b := by
  induction a with
  | nil => simp [firstMatchParse]
  | cons m rest ih =>
    cases htm : tryMatchParse m with
    | some v =>
      show (match tryMatchParse m with
            | some w => some w
            | none => firstMatchParse (rest ++ b)) = _
      rw [htm]
      have hr : firstMatchParse (m :: rest) = some v := by
        show (match tryMatchParse m with
              | some w => some w
              | none => firstMatchParse rest) = some v
        rw [htm]
      rw [hr]
    | none =>
      show (match tryMatchParse m with
            | some w => some w
            | none => firstMatchParse (rest ++ b)) = _
      rw [htm]
      have hr : firstMatchParse (m :: rest) = firstMatchParse rest := by
        show (match tryMatchParse m with
              | some w => some w
              | none => firstMatchParse rest) = firstMatchParse rest
        rw [htm]
      rw [hr, ih]

/-- The nested pattern/match loops equal first-success over the flattened,
priority-ordered candidate list. -/
theorem firstPatternParse_eq_flat (ls : List (List String)) :
    firstPatternParse ls = firstMatchParse (ls.foldr (fun a b => a ++ b) []) := by
  induction ls with
  | nil => rfl
  | cons p rest ih =>
    unfold firstPatternParse
    rw [List.foldr_cons, firstMatchParse_append, ih]

/-- C8 as amended: `_parse_gemini_response` tries a direct whole-text parse
of the cleaned response first, and only on failure tries the candidates of
the five regex strategies — labeled fenced block, any fenced block, the
balanced-brace matches (leftmost first, the extraction run twice by the two
equivalent balanced patterns), then the greedy brace match — returning the
first candidate that parses, else the error mapping. -/
theorem strategy_order_first_success (response : String) :
    parseGeminiResponse response = parsePriority response := by
  unfold parseGeminiResponse parsePriority
  rw [firstPatternParse_eq_flat]

/-- C8 counterexample: on an input whose leftmost balanced-brace match parses
but is smaller than a later one, the code returns the leftmost object, not
the parse of the LARGEST balanced-brace substring the claim describes. -/
theorem largest_balanced_reading_refuted :
    parseGeminiResponse cexParseInput = JVal.obj [("a", JVal.num (mkRat 1 1))] ∧
    parsePriorityClaim cexParseInput =
      JVal.obj [("b", JVal.num (mkRat 2 1)), ("c", JVal.num (mkRat 3 1))] ∧
    parseGeminiResponse cexParseInput ≠ parsePriorityClaim cexParseInput := by
  refine ⟨rfl, rfl, ?_⟩
  intro h
  have h2 : objKeys (parseGeminiResponse cexParseInput) =
      objKeys (parsePriorityClaim cexParseInput) := by rw [h]
  have h3 : objKeys (parseGeminiResponse cexParseInput) = ["a"] := rfl
  have h4 : objKeys (parsePriorityClaim cexParseInput) = ["b", "c"] := rfl
  rw [h3, h4] at h2
  exact absurd h2 (by decide)

/-- C9 (code bug): on the raw response `"42"` the normalizer's direct parse
succeeds with a bare number, so `_parse_gemini_response` returns a non-dict —
against its own `Dict[str, Any]` annotation and the spec's
`Result<Mapping, NormalizationError>` contract; and on an input where every
strategy fails it does return the error mapping with the 500-character
excerpt. -/
theorem parse_returns_bare_number :
    parseGeminiResponse "42" = JVal.num (mkRat 42 1) ∧
    isJObj (parseGeminiResponse "42") = false ∧
    parseGeminiResponse "no json here" = parseFailObj "no json here" := by
  exact ⟨rfl, rfl, rfl⟩
/-- C10: a candidate with no `confidence_score` key that survives rules 1-4
is terminally rejected: the engine defaults the score to `0` (the upstream
response validator instead defaults to `1.0` — its verdict is unchanged by
making that default explicit), so the confidence floor fires with the error
"AI confidence too low: 0". -/
theorem missing_confidence_fatal (db : Store) (d : InvoiceData) (u : String) (now : ℚ)
    (h1 : checkDuplicateInvoiceId db d.invoice_number d.vendor_name u = true)
    (h2 : checkDuplicateEmailMessage db d.email_message_id u = true)
    (h3 : validateRequiredFields d = [])
    (hc : classifyDocument (d.email_subject.getD "") (d.email_sender.getD "")
        (d.vendor_name.getD "") ≠ DocumentType.PAYMENT_NOTIFICATION)
    (hconf : d.confidence_score = none) :
    (validateInvoice db d u now).should_save = false ∧
    (validateInvoice db d u now).is_valid = false ∧
    "AI confidence too low: 0" ∈ (validateInvoice db d u now).errors ∧
    (∀ m : GeminiMapping, m.confidence_score = none →
      validateGeminiResponse m =
        validateGeminiResponse { m with confidence_score := some (mkRat 1 1) }) := by
  have hmsg : "AI confidence too low: 0" = confLowMsg (mkRat 0 1) := by decide
  rw [validateInvoice_continue db d u now h1 h2 h3 hc]
  unfold validateGeminiResults
  rw [hconf]
  simp only [Option.getD_none]
  rw [confCheck_lt (by decide)]
  refine ⟨by simp, by simp, ?_, ?_⟩
  · rw [hmsg]
    simp
  · intro m hm
    unfold validateGeminiResponse
    rw [hm]
    rfl

/-- Witness for C10: the Figma candidate without a confidence score is
rejected, and the all-null mapping's upstream verdict is unchanged by the
explicit 1.0 default. -/
theorem missing_confidence_fatal_witness :
    (validateInvoice emptyStore noConfCandidate "u1" (mkRat 0 1)).should_save = false ∧
    "AI confidence too low: 0" ∈
      (validateInvoice emptyStore noConfCandidate "u1" (mkRat 0 1)).errors :=
  ⟨(missing_confidence_fatal emptyStore noConfCandidate "u1" (mkRat 0 1)
      (by decide) (by decide) (by decide) (by decide) rfl).1,
   (missing_confidence_fatal emptyStore noConfCandidate "u1" (mkRat 0 1)
      (by decide) (by decide) (by decide) (by decide) rfl).2.2.1⟩
